import Mathlib

/-!
Verification development for the adaptive-rehab-ai core: a shallow embedding of
the safety-validation layer (service/adaptrehab/core/safety_wrapper.py), the
adaptation engine (service/adaptrehab/core/adaptation_engine.py) and the three
decision modules (service/adaptrehab/modules/{rule_based,fuzzy_logic,
reinforcement_learning}.py), with theorems about the embedded operations.

Modelling conventions:
- Python floats are embedded as exact rationals (ℚ); every numeric literal of
  the source appears verbatim (0.4, 0.85, ...) and denotes the same value.
- Python dicts are association lists looked up by first occurrence.
- Python values of type Any that the embedded code inspects dynamically are
  the inductive PyVal (number / string / None; the one nested-dict shape the
  safety wrapper inspects, a per-parameter min/max table, is BoundSpec).
- Code that can raise is embedded in Except String; the error string names the
  Python exception class raised on that path.
- Interpolated numbers inside log/explanation strings (Python f-string pieces
  such as formatted confidences) are elided from the embedded strings; no
  claim depends on them.
-/

namespace AdaptRehab

deriving instance DecidableEq for Except

/-- The three adaptation actions of modules/base_module.py (enum AdaptationAction). -/
inductive AdaptationAction where
  | INCREASE
  | DECREASE
  | MAINTAIN
deriving DecidableEq, Repr

/-- A dynamically-typed Python value as inspected by the embedded code:
a float/int, a string, or None. -/
inductive PyVal where
  | num (q : ℚ)
  | str (s : String)
  | none
deriving DecidableEq, Repr

/-- A Python dict with Any values: an association list, first key wins. -/
abbrev PyDict := List (String × PyVal)

/-- First-occurrence association-list lookup (Python dict indexing). -/
def alookup {α : Type} (m : List (String × α)) (k : String) : Option α :=
  (m.find? (fun p => p.1 == k)).map (fun p => p.2)

/-- Python dict.get with a default. -/
def dget {α : Type} (m : List (String × α)) (k : String) (d : α) : α :=
  (alookup m k).getD d

/-- StateVector of modules/base_module.py.  The three maps may be Python None
(that is what validate_state screens out), hence the Option. -/
structure StateVector where
  performance_metrics : Option (List (String × ℚ))
  sensor_data : Option (List (String × ℚ))
  task_state : Option PyDict
deriving DecidableEq, Repr

/-- AdaptationDecision of modules/base_module.py.  parameters is a Dict that a
malformed producer may leave as None. -/
structure AdaptationDecision where
  action : AdaptationAction
  magnitude : ℚ
  parameters : Option PyDict
  confidence : ℚ
  explanation : String
deriving DecidableEq, Repr

/-- A value of the safety wrapper's per-parameter bounds table
(safety_wrapper.py self.bounds): either a dict (normally carrying numeric
min/max entries) or some non-dict value (the malformed case the code probes
with isinstance). -/
inductive BoundSpec where
  | dict (entries : PyDict)
  | scalar (v : PyVal)
deriving DecidableEq, Repr

/-- Violation types appended by SafetyWrapper._log_violation. -/
inductive Violation where
  | low_confidence
  | parameter_bounds
  | rate_limit
  | infeasible_action
deriving DecidableEq, Repr

/-- The safety wrapper's configuration and installed bounds
(safety_wrapper.py __init__ and set_bounds). -/
structure SafetyConfig where
  enabled : Bool
  max_change_rate : ℚ
  min_confidence : ℚ
  bounds : List (String × BoundSpec)
deriving DecidableEq, Repr

/-- Value of a digit character. -/
def digitVal (c : Char) : ℕ := c.toNat - '0'.toNat

/-- Numeric value of a digit string. -/
def digitsVal (l : List Char) : ℕ :=
  l.foldl (fun acc c => acc * 10 + digitVal c) 0

/-- Python float(s) on the unsigned part: [digits][.digits] with at least one
digit.  (Exponents, inf/nan and underscores are not modelled; no embedded
input uses them.) -/
def pyFloatUnsigned (cs : List Char) : Option ℚ :=
  let intPart := cs.takeWhile Char.isDigit
  let rest := cs.dropWhile Char.isDigit
  match rest with
  | [] =>
      if intPart.isEmpty then Option.none
      else Option.some (digitsVal intPart : ℚ)
  | '.' :: fracPart =>
      if fracPart.all Char.isDigit && !(intPart.isEmpty && fracPart.isEmpty) then
        Option.some ((digitsVal intPart : ℚ) + (digitsVal fracPart : ℚ) / 10 ^ fracPart.length)
      else Option.none
  | _ => Option.none

/-- Python float(s) applied to a string: optional sign, then an unsigned
decimal.  (float() also strips surrounding whitespace; stripping is not
modelled, no embedded input carries it.) -/
def pyFloat (s : String) : Option ℚ :=
  match s.data with
  | '+' :: rest => pyFloatUnsigned rest
  | '-' :: rest => (pyFloatUnsigned rest).map (fun q => -q)
  | rest => pyFloatUnsigned rest

/-- Python ordering comparison a >= b on dynamic values: defined on numbers,
a TypeError otherwise. -/
def pyGE (a b : PyVal) : Except String Bool :=
  match a, b with
  | .num x, .num y => .ok (decide (x ≥ y))
  | _, _ => .error "TypeError: unorderable operands"

/-- Python ordering comparison a <= b on dynamic values. -/
def pyLE (a b : PyVal) : Except String Bool :=
  match a, b with
  | .num x, .num y => .ok (decide (x ≤ y))
  | _, _ => .error "TypeError: unorderable operands"

/-- SafetyWrapper._create_safe_default: maintain, magnitude 0, empty
parameters, confidence 1. -/
def safeDefault : AdaptationDecision :=
  { action := .MAINTAIN
    magnitude := 0
    parameters := Option.some []
    confidence := 1
    explanation := "Safety override: maintaining current difficulty" }

/-- One parameter of SafetyWrapper._apply_parameter_bounds: clamp a value into
its configured min/max range if the bound is a dict holding both keys and the
value is numeric.  Comparing a numeric value against a non-numeric min (or,
when the min test fails, a non-numeric max) raises TypeError in the source. -/
def clampParam (bounds : List (String × BoundSpec)) (k : String) (v : PyVal) :
    Except String (PyVal × Bool) :=
  match alookup bounds k with
  | Option.none => .ok (v, false)
  | Option.some (.scalar _) => .ok (v, false)
  | Option.some (.dict e) =>
    if (alookup e "min").isSome && (alookup e "max").isSome then
      match v with
      | .num q =>
        match dget e "min" PyVal.none with
        | .num lo =>
          if q < lo then .ok (.num lo, true)
          else
            match dget e "max" PyVal.none with
            | .num hi => if q > hi then .ok (.num hi, true) else .ok (v, false)
            | _ => .error "TypeError: unorderable operands"
        | _ => .error "TypeError: unorderable operands"
      | _ => .ok (v, false)
    else .ok (v, false)

/-- SafetyWrapper._apply_parameter_bounds over the whole parameters dict. -/
def applyParameterBounds (bounds : List (String × BoundSpec)) :
    PyDict → Except String (PyDict × Bool)
  | [] => .ok ([], false)
  | (k, v) :: rest =>
    match clampParam bounds k v with
    | .error e => .error e
    | .ok (v2, m1) =>
      match applyParameterBounds bounds rest with
      | .error e => .error e
      | .ok (rest2, m2) => .ok ((k, v2) :: rest2, m1 || m2)

/-- Python float conversion applied when the difficulty read from task_state
is a string (raising ValueError when the string does not parse); other values
pass through. -/
def toFloatIfStr (v : PyVal) : Except String PyVal :=
  match v with
  | .str s =>
    match pyFloat s with
    | Option.some q => .ok (.num q)
    | Option.none => .error "ValueError: could not convert string to float"
  | v => .ok v

/-- SafetyWrapper._is_action_feasible: read the current difficulty from
task_state (float-converting a string first), then reject INCREASE at or
above the configured max and DECREASE at or below the configured min.  A
non-dict bounds entry raises AttributeError at the .get call; comparing a
non-numeric current difficulty or bound raises TypeError. -/
def isActionFeasible (cfg : SafetyConfig) (state : StateVector)
    (decision : AdaptationDecision) : Except String Bool :=
  match state.task_state with
  | Option.none => .error "AttributeError: NoneType has no attribute get"
  | Option.some ts =>
    match toFloatIfStr (dget ts "difficulty" (.num 0.5)) with
    | .error e => .error e
    | .ok cur =>
      match decision.action with
      | .INCREASE =>
        match alookup cfg.bounds "difficulty" with
        | Option.none => .ok true
        | Option.some (.scalar _) => .error "AttributeError: object has no attribute get"
        | Option.some (.dict e) =>
          match pyGE cur (dget e "max" (.num 1.0)) with
          | .error err => .error err
          | .ok atMax => .ok (!atMax)
      | .DECREASE =>
        match alookup cfg.bounds "difficulty" with
        | Option.none => .ok true
        | Option.some (.scalar _) => .error "AttributeError: object has no attribute get"
        | Option.some (.dict e) =>
          match pyLE cur (dget e "min" (.num 0.0)) with
          | .error err => .error err
          | .ok atMin => .ok (!atMin)
      | .MAINTAIN => .ok true

/-- SafetyWrapper._apply_rate_limiting: clamp the magnitude to
max_change_rate, annotating the explanation when it fires. -/
def rateLimit (cfg : SafetyConfig) (d : AdaptationDecision) :
    AdaptationDecision × Bool :=
  if d.magnitude > cfg.max_change_rate then
    ({ d with
       magnitude := cfg.max_change_rate
       explanation := d.explanation ++ " [Rate limited]" }, true)
  else (d, false)

/-- The decision installed by the confidence floor: the safe default with the
override explanation. -/
def confidenceDefault : AdaptationDecision :=
  { safeDefault with
    explanation := "Original confidence too low. Defaulting to maintain." }

/-- Steps 2-4 of SafetyWrapper.validate_decision (parameter bounds, rate
limiting, feasibility), applied to the decision d1 left by the confidence
floor, with the was_modified flag and violations v1 accumulated so far.
Accessing a None parameters dict raises AttributeError (parameters.copy() in
the source). -/
def validateFrom (cfg : SafetyConfig) (state : StateVector)
    (d1 : AdaptationDecision) (m1 : Bool) (v1 : List Violation) :
    Except String (AdaptationDecision × Bool × List Violation) :=
  match d1.parameters with
  | Option.none => .error "AttributeError: NoneType has no attribute copy"
  | Option.some ps =>
    match applyParameterBounds cfg.bounds ps with
    | .error e => .error e
    | .ok (ps2, pm) =>
      let d2 := if pm then { d1 with parameters := Option.some ps2 } else d1
      let v2 := if pm then v1 ++ [Violation.parameter_bounds] else v1
      match rateLimit cfg d2 with
      | (d3, rm) =>
        let v3 := if rm then v2 ++ [Violation.rate_limit] else v2
        match isActionFeasible cfg state d3 with
        | .error e => .error e
        | .ok true => .ok (d3, m1 || (pm || rm), v3)
        | .ok false =>
          .ok ({ safeDefault with
                 explanation := "Action not feasible. Maintaining current difficulty." },
               true, v3 ++ [Violation.infeasible_action])

/-- SafetyWrapper.validate_decision: the four ordered checks (confidence
floor, then validateFrom for parameter bounds, rate limiting and
feasibility).  Returns the validated decision, the was_modified flag, and the
violation types logged during the call.  A disabled wrapper passes the
decision through. -/
def validate_decision (cfg : SafetyConfig) (decision : AdaptationDecision)
    (state : StateVector) : Except String (AdaptationDecision × Bool × List Violation) :=
  if !cfg.enabled then .ok (decision, false, [])
  else if decision.confidence < cfg.min_confidence then
    validateFrom cfg state confidenceDefault true [Violation.low_confidence]
  else
    validateFrom cfg state decision false []

/-- Mean of a list of rationals (sum(l)/len(l); 0 on the empty list, which the
source never hits because it always appends before averaging). -/
def listMean (l : List ℚ) : ℚ := l.sum / l.length

/-- RuleBasedModule configuration fields (rule_based.py). -/
structure RuleBasedConfig where
  success_threshold : ℚ
  failure_threshold : ℚ
  increase_step : ℚ
  decrease_step : ℚ
deriving DecidableEq, Repr

/-- RuleBasedModule.initialize: read thresholds from config with the source
defaults, then override from the patient baseline when present. -/
def ruleBasedInitConfig (config : List (String × ℚ)) (patient_profile : List (String × ℚ)) :
    RuleBasedConfig :=
  let base : RuleBasedConfig :=
    { success_threshold := dget config "success_threshold" 0.8
      failure_threshold := dget config "failure_threshold" 0.4
      increase_step := dget config "increase_step" 0.1
      decrease_step := dget config "decrease_step" 0.15 }
  match alookup patient_profile "baseline_performance" with
  | Option.some baseline =>
      { base with
        success_threshold := min 0.9 (baseline + 0.2)
        failure_threshold := max 0.3 (baseline - 0.2) }
  | Option.none => base

/-- RuleBasedModule.compute_adaptation: push success_rate into the rolling
window (size 5), average, pick the action by threshold, and derive the new
difficulty.  Returns the updated window together with the decision.  (The
confidence divisions reproduce the source expressions; the embedded
configurations keep their denominators nonzero.) -/
def ruleBasedCompute (cfg : RuleBasedConfig) (hist : List ℚ) (st : StateVector) :
    Except String (List ℚ × AdaptationDecision) :=
  match st.performance_metrics with
  | Option.none => .error "AttributeError: NoneType has no attribute get"
  | Option.some metrics =>
    let accuracy := dget metrics "accuracy" 0.5
    let success_rate := dget metrics "success_rate" accuracy
    let hist1 := hist ++ [success_rate]
    let hist2 := if hist1.length > 5 then hist1.drop 1 else hist1
    let avg := listMean hist2
    let (action, magnitude, confidence, explanation) :=
      if avg ≥ cfg.success_threshold then
        (AdaptationAction.INCREASE, cfg.increase_step,
         min 1.0 ((avg - cfg.success_threshold) / (1.0 - cfg.success_threshold)),
         "Performance exceeds threshold. Increasing difficulty")
      else if avg ≤ cfg.failure_threshold then
        (AdaptationAction.DECREASE, cfg.decrease_step,
         min 1.0 ((cfg.failure_threshold - avg) / cfg.failure_threshold),
         "Performance below threshold. Decreasing difficulty")
      else
        (AdaptationAction.MAINTAIN, 0.0, 0.9,
         "Performance in acceptable range. Maintaining difficulty")
    match st.task_state with
    | Option.none => .error "AttributeError: NoneType has no attribute get"
    | Option.some ts =>
      match dget ts "difficulty" (.num 0.5) with
      | .num current_difficulty =>
        let new_difficulty :=
          if action = AdaptationAction.INCREASE then min 1.0 (current_difficulty + magnitude)
          else if action = AdaptationAction.DECREASE then max 0.0 (current_difficulty - magnitude)
          else current_difficulty
        .ok (hist2,
          { action := action
            magnitude := magnitude
            parameters := Option.some
              [("difficulty", .num new_difficulty),
               ("current_performance", .num avg)]
            confidence := confidence
            explanation := explanation })
      | _ => .error "TypeError: unsupported operand type for +"

/-- n consecutive RuleBasedModule.compute_adaptation calls on the same state,
threading the rolling window; returns the final window and the last decision. -/
def ruleBasedIter (cfg : RuleBasedConfig) (st : StateVector) :
    ℕ → Except String (List ℚ × Option AdaptationDecision)
  | 0 => .ok ([], Option.none)
  | n + 1 => do
    let (h, _) ← ruleBasedIter cfg st n
    let (h', d) ← ruleBasedCompute cfg h st
    .ok (h', Option.some d)

/-- FuzzyLogicModule._trapezoid_membership with parameter list [a, b, c, d]:
0 outside (a, d), the rising ramp on (a, b), 1 on [b, c], the falling ramp on
(c, d) — with the source's condition order. -/
def trapezoidMembership (x a b c d : ℚ) : ℚ :=
  if x ≤ a ∨ x ≥ d then 0.0
  else if a < x ∧ x < b then (x - a) / (b - a)
  else if b ≤ x ∧ x ≤ c then 1.0
  else (d - x) / (d - c)

/-- FuzzyLogicModule._fuzzify_performance: memberships (low, medium, high)
with the source parameter sets. -/
def fuzzifyPerformance (performance : ℚ) : ℚ × ℚ × ℚ :=
  (trapezoidMembership performance 0 0 0.3 0.5,
   trapezoidMembership performance 0.3 0.5 0.5 0.7,
   trapezoidMembership performance 0.5 0.7 1.0 1.0)

/-- FuzzyLogicModule._defuzzify: weighted centroid over the singleton centers
(-0.1, 0.0, 0.1); 0 when all memberships vanish. -/
def defuzzify (decrease maintain increase : ℚ) : ℚ :=
  let numerator := decrease * (-0.1) + maintain * 0.0 + increase * 0.1
  let denominator := decrease + maintain + increase
  if denominator = 0 then 0.0 else numerator / denominator

/-- FuzzyLogicModule._compute_aggregate_performance: the weighted blend of
accuracy (0.4), success rate (0.3), inverted error rate (0.2) and normalized
inverse reaction time (0.1), pushed through the rolling window (cap 5) and
smoothed by its mean once more than one entry exists.  Returns the updated
window and the (possibly smoothed) performance. -/
def computeAggregatePerformance (hist : List ℚ) (metrics : List (String × ℚ)) :
    List ℚ × ℚ :=
  let accuracy := dget metrics "accuracy" 0.5
  let success_rate := dget metrics "success_rate" accuracy
  let error_rate := dget metrics "error_rate" (1 - accuracy)
  let error_score := 1 - error_rate
  let reaction_time := dget metrics "reaction_time" 1.0
  let reaction_score := max 0 (1 - reaction_time / 2.0)
  let performance :=
    0.4 * accuracy + 0.3 * success_rate + 0.2 * error_score + 0.1 * reaction_score
  let hist1 := hist ++ [performance]
  let hist2 := if hist1.length > 5 then hist1.drop 1 else hist1
  (hist2, if hist2.length > 1 then listMean hist2 else performance)

/-- The dominant linguistic term (Python max over the dict iterated in order
low, medium, high, keeping the first maximum). -/
def dominantTerm (low medium high : ℚ) : String :=
  let w1 := if medium > low then "medium" else "low"
  let v1 := max medium low
  if high > v1 then "high" else w1

/-- FuzzyLogicModule.compute_adaptation: aggregate performance, fuzzify, apply
the three rules, defuzzify, scale by step_size, clip the new difficulty into
[0, 1] and select the action (MAINTAIN strictly below the 0.01 cutoff).
Returns the updated smoothing window and the decision. -/
def fuzzyComputeAdaptation (step_size : ℚ) (hist : List ℚ) (st : StateVector) :
    Except String (List ℚ × AdaptationDecision) :=
  match st.performance_metrics with
  | Option.none => .error "AttributeError: NoneType has no attribute get"
  | Option.some metrics =>
    let (hist2, performance) := computeAggregatePerformance hist metrics
    let (low, medium, high) := fuzzifyPerformance performance
    let decrease := low
    let maintain := medium
    let increase := high
    let difficulty_change := defuzzify decrease maintain increase * step_size
    match st.task_state with
    | Option.none => .error "AttributeError: NoneType has no attribute get"
    | Option.some ts =>
      match dget ts "difficulty" (.num 0.5) with
      | .num current_difficulty =>
        let new_difficulty := min 1.0 (max 0.0 (current_difficulty + difficulty_change))
        let action :=
          if |difficulty_change| < 0.01 then AdaptationAction.MAINTAIN
          else if difficulty_change > 0 then AdaptationAction.INCREASE
          else AdaptationAction.DECREASE
        let confidence := max decrease (max maintain increase)
        let term := dominantTerm low medium high
        .ok (hist2,
          { action := action
            magnitude := |difficulty_change|
            parameters := Option.some [("difficulty", .num new_difficulty)]
            confidence := confidence
            explanation := "Performance is " ++ term ++ ". Adjusting difficulty" })
      | _ => .error "TypeError: unsupported operand type for +"

/-- Python int() truncation toward zero on a rational. -/
def pyInt (q : ℚ) : ℤ :=
  if q < 0 then -Int.floor (-q) else Int.floor q

/-- ReinforcementLearningModule._calculate_trend_bin: compare the mean of the
last three history entries against the mean of the older ones (0.5 when no
older entries exist); fewer than two entries default to stable (1). -/
def calculateTrendBin (hist : List ℚ) : ℕ :=
  if hist.length < 2 then 1
  else
    let recent := hist.drop (hist.length - 3)
    let avg_recent := listMean recent
    let older := if hist.length > 3 then hist.take (hist.length - 3) else [0.5]
    let avg_older := listMean older
    if avg_recent > avg_older + 0.05 then 2
    else if avg_recent < avg_older - 0.05 then 0
    else 1

/-- ReinforcementLearningModule._discretize_state: bucket accuracy into
perf_bins bins and difficulty into diff_bins bins (each capped at bins - 1)
and append the trend bin. -/
def discretizeState (perf_bins diff_bins : ℕ) (hist : List ℚ) (st : StateVector) :
    Except String (ℤ × ℤ × ℕ) :=
  match st.performance_metrics with
  | Option.none => .error "AttributeError: NoneType has no attribute get"
  | Option.some metrics =>
    let performance := dget metrics "accuracy" 0.5
    match st.task_state with
    | Option.none => .error "AttributeError: NoneType has no attribute get"
    | Option.some ts =>
      match dget ts "difficulty" (.num 0.5) with
      | .num difficulty =>
        let perf_bin := min (pyInt (performance * perf_bins)) ((perf_bins : ℤ) - 1)
        let diff_bin := min (pyInt (difficulty * diff_bins)) ((diff_bins : ℤ) - 1)
        .ok (perf_bin, diff_bin, calculateTrendBin hist)
      | _ => .error "TypeError: unsupported operand type for *"

/-- The behavior of a module instance as the engine consumes it: the AMI
operations the modeled engine operations call.  Each may raise (Except),
mirroring arbitrary concrete-module code behind the polymorphic contract. -/
structure ModuleBehavior where
  validate_state : StateVector → Except String Bool
  compute_adaptation : StateVector → Except String AdaptationDecision
  save_checkpoint : String → Except String Bool
  reset : Except String Unit
  initModule : PyDict → PyDict → Except String Bool

/-- One entry of AdaptationEngine.sessions. -/
structure SessionInfo where
  module_type : String
  patient_profile : PyDict
  task_config : PyDict
  start_time : ℚ
  adaptation_count : ℕ
deriving DecidableEq, Repr

/-- AdaptationEngine state: running flag, the single shared active module,
the session registry, counters, the module registry (a registered type name
maps to the behavior its constructed instances exhibit), per-type module
configurations, the safety wrapper's configuration, and the event bus's
publish effect keyed by topic. -/
structure EngineState where
  is_running : Bool
  active_module : Option ModuleBehavior
  sessions : List (String × SessionInfo)
  total_adaptations : ℕ
  safety_interventions : ℕ
  average_latency_ms : ℚ
  module_swaps : ℕ
  registry : List (String × ModuleBehavior)
  module_configs : List (String × PyDict)
  safety : SafetyConfig
  event_publish : String → Except String Unit

/-- AdaptationEngine._update_stats: running-mean latency and total counter. -/
def updateStats (eng : EngineState) (latency_ms : ℚ) : EngineState :=
  { eng with
    average_latency_ms :=
      (eng.average_latency_ms * eng.total_adaptations + latency_ms) /
        (eng.total_adaptations + 1)
    total_adaptations := eng.total_adaptations + 1 }

/-- Replace the session stored under sid. -/
def setSession (sessions : List (String × SessionInfo)) (sid : String)
    (info : SessionInfo) : List (String × SessionInfo) :=
  sessions.map (fun p => if p.1 == sid then (p.1, info) else p)

/-- Steps 4-5 of AdaptationEngine.compute_adaptation: count the safety
intervention, update the latency statistics, and bump the session counter
when the session is registered. -/
def afterStats (eng : EngineState) (was_modified : Bool) (latency_ms : ℚ)
    (session_id : String) : EngineState :=
  let eng1 :=
    if was_modified then
      { eng with safety_interventions := eng.safety_interventions + 1 }
    else eng
  let eng2 := updateStats eng1 latency_ms
  match alookup eng2.sessions session_id with
  | Option.some info =>
    let info2 := { info with adaptation_count := info.adaptation_count + 1 }
    { eng2 with sessions := setSession eng2.sessions session_id info2 }
  | Option.none => eng2

/-- Checkpoint an optional module (engine code guarded by `if
self.active_module`), discarding the boolean result as the source does. -/
def checkpointModule (m? : Option ModuleBehavior) (path : String) :
    Except String Unit :=
  match m? with
  | Option.none => .ok ()
  | Option.some m => (m.save_checkpoint path).map (fun _ => ())

/-- Checkpoint then reset an optional module (end_session cleanup). -/
def checkpointAndReset (m? : Option ModuleBehavior) (path : String) :
    Except String Unit :=
  match m? with
  | Option.none => .ok ()
  | Option.some m =>
    match m.save_checkpoint path with
    | .error e => .error e
    | .ok _ => m.reset

/-- Reset an optional module (swap_module old-module cleanup). -/
def resetModule (m? : Option ModuleBehavior) : Except String Unit :=
  match m? with
  | Option.none => .ok ()
  | Option.some m => m.reset

/-- AdaptationEngine.compute_adaptation: no-decision when not running or
without an active module; otherwise validate the state, run the module, run
the safety wrapper, then afterStats, then publish.  Any raise inside the
pipeline is caught at the boundary and becomes a no-decision result, keeping
whatever state mutations already happened.  The measured latency enters as
the latency_ms argument. -/
def computeAdaptation (eng : EngineState) (session_id : String) (st : StateVector)
    (latency_ms : ℚ) : EngineState × Option AdaptationDecision :=
  if !eng.is_running then (eng, Option.none)
  else
    match eng.active_module with
    | Option.none => (eng, Option.none)
    | Option.some m =>
      match m.validate_state st with
      | .error _ => (eng, Option.none)
      | .ok false => (eng, Option.none)
      | .ok true =>
        match m.compute_adaptation st with
        | .error _ => (eng, Option.none)
        | .ok decision =>
          match validate_decision eng.safety decision st with
          | .error _ => (eng, Option.none)
          | .ok (safe_decision, was_modified, _) =>
            let eng3 := afterStats eng was_modified latency_ms session_id
            match eng3.event_publish "adaptation.computed" with
            | .error _ => (eng3, Option.none)
            | .ok _ => (eng3, Option.some safe_decision)

/-- AdaptationEngine.end_session: checkpoint and reset the active module, pop
the session, publish, and stop the engine (clearing the active module) when no
sessions remain.  Raises inside the try block are caught and yield False,
keeping the mutations already performed. -/
def endSession (eng : EngineState) (session_id : String) : EngineState × Bool :=
  match alookup eng.sessions session_id with
  | Option.none => (eng, false)
  | Option.some info =>
    match checkpointAndReset eng.active_module
        ("checkpoints/" ++ session_id ++ "_" ++ info.module_type ++ "_final.ckpt") with
    | .error _ => (eng, false)
    | .ok _ =>
      let eng1 := { eng with sessions := eng.sessions.filter (fun p => !(p.1 == session_id)) }
      match eng1.event_publish "session.ended" with
      | .error _ => (eng1, false)
      | .ok _ =>
        if eng1.sessions.isEmpty then
          ({ eng1 with is_running := false, active_module := Option.none }, true)
        else (eng1, true)

/-- The configuration passed to a swapped-in module: new_config, falling back
to the engine's per-type config when None or empty (Python truthiness of
`new_config or ...`). -/
def swapConfig (eng : EngineState) (new_module_type : String)
    (new_config : Option PyDict) : PyDict :=
  let fallback := (alookup eng.module_configs new_module_type).getD []
  match new_config with
  | Option.some c => if c.isEmpty then fallback else c
  | Option.none => fallback

/-- AdaptationEngine.swap_module: unknown session and unknown type fail; the
old module is checkpointed, the new one is constructed from the registry and
initialized with the session's patient profile (new_config falls back to the
engine's per-type config when None or empty, mirroring Python truthiness); on
success the active module is replaced, the old module reset, the session's
module_type updated and the swap counter bumped.  Raises are caught and yield
False, keeping the mutations already performed. -/
def swapModule (eng : EngineState) (session_id new_module_type : String)
    (new_config : Option PyDict) : EngineState × Bool :=
  match alookup eng.sessions session_id with
  | Option.none => (eng, false)
  | Option.some info =>
    match checkpointModule eng.active_module
        ("checkpoints/" ++ session_id ++ "_" ++ info.module_type ++ ".ckpt") with
    | .error _ => (eng, false)
    | .ok _ =>
      match alookup eng.registry new_module_type with
      | Option.none => (eng, false)
      | Option.some new_module =>
        match new_module.initModule (swapConfig eng new_module_type new_config)
            info.patient_profile with
        | .error _ => (eng, false)
        | .ok false => (eng, false)
        | .ok true =>
          let eng1 := { eng with active_module := Option.some new_module }
          match resetModule eng.active_module with
          | .error _ => (eng1, false)
          | .ok _ =>
            let info2 := { info with module_type := new_module_type }
            let eng2 :=
              { eng1 with
                sessions := setSession eng1.sessions session_id info2
                module_swaps := eng1.module_swaps + 1 }
            match eng2.event_publish "module.swapped" with
            | .error _ => (eng2, false)
            | .ok _ => (eng2, true)

/-- A state whose aggregate fuzzy performance evaluates to 0.2 on a single
call: 0.4·0.5 + 0.3·0 + 0.2·(1-1) + 0.1·max(0, 1-2/2) = 0.2. -/
def stateC4 : StateVector :=
  { performance_metrics := Option.some
      [("accuracy", 0.5), ("success_rate", 0.0), ("error_rate", 1.0), ("reaction_time", 2.0)]
    sensor_data := Option.some []
    task_state := Option.some [("difficulty", .num 0.5)] }

/-- The Scenario-1 rule-based configuration. -/
def ruleBasedCfgScn1 : RuleBasedConfig :=
  { success_threshold := 0.8
    failure_threshold := 0.4
    increase_step := 0.1
    decrease_step := 0.15 }

/-- A state carrying success_rate 0.85 at difficulty 0.5. -/
def stateC5 : StateVector :=
  { performance_metrics := Option.some [("success_rate", 0.85)]
    sensor_data := Option.some []
    task_state := Option.some [("difficulty", .num 0.5)] }

/-- A state with accuracy 0.25 at difficulty 0.7. -/
def stateC6 : StateVector :=
  { performance_metrics := Option.some [("accuracy", 0.25)]
    sensor_data := Option.some []
    task_state := Option.some [("difficulty", .num 0.7)] }

/-- The entry under key, when present, is numeric. -/
def numIfPresent (e : PyDict) (key : String) : Bool :=
  match alookup e key with
  | Option.none => true
  | Option.some (.num _) => true
  | Option.some _ => false

/-- A bounds-table value the safety wrapper can consume on every path:
a dict whose min/max entries, when present, are numeric. -/
def boundSpecWF : BoundSpec → Bool
  | .dict e => numIfPresent e "min" && numIfPresent e "max"
  | .scalar _ => false

/-- Every configured bound is consumable (see boundSpecWF). -/
def boundsWF (bounds : List (String × BoundSpec)) : Bool :=
  bounds.all (fun p => boundSpecWF p.2)

/-- The state's task_state map is present and its difficulty entry (default
0.5) is a number or a float-parseable string, so _is_action_feasible cannot
raise on it. -/
def difficultyReadable (st : StateVector) : Bool :=
  match st.task_state with
  | Option.none => false
  | Option.some ts =>
    match dget ts "difficulty" (.num 0.5) with
    | .num _ => true
    | .str s => (pyFloat s).isSome
    | .none => false

/-- A safety configuration with the source defaults (max_change_rate 0.2,
min_confidence 0.3) and a difficulty bound of [0, 1]. -/
def safetyCfgScn : SafetyConfig :=
  { enabled := true
    max_change_rate := 0.2
    min_confidence := 0.3
    bounds := [("difficulty", .dict [("min", .num 0.0), ("max", .num 1.0)])] }

/-- A well-formed state at difficulty 0.5. -/
def stateDiffHalf : StateVector :=
  { performance_metrics := Option.some []
    sensor_data := Option.some []
    task_state := Option.some [("difficulty", .num 0.5)] }

/-- A state whose task_state carries a non-numeric string difficulty. -/
def stateStrDiff : StateVector :=
  { performance_metrics := Option.some []
    sensor_data := Option.some []
    task_state := Option.some [("difficulty", .str "hard")] }

/-- A well-formed module decision whose difficulty parameter exceeds the
configured max, for exercising the clamp path. -/
def decisionOverMax : AdaptationDecision :=
  { action := .INCREASE
    magnitude := 0.1
    parameters := Option.some [("difficulty", .num 1.5)]
    confidence := 0.9
    explanation := "from module" }

/-- A plain in-bounds decision. -/
def decisionPlain : AdaptationDecision :=
  { action := .MAINTAIN
    magnitude := 0.0
    parameters := Option.some []
    confidence := 0.9
    explanation := "from module" }

/-- A decision whose confidence 0.1 sits below the 0.3 floor. -/
def decisionLowConf : AdaptationDecision :=
  { action := .INCREASE
    magnitude := 0.15
    parameters := Option.some [("difficulty", .num 0.65)]
    confidence := 0.1
    explanation := "from module" }

/-- decisionOverMax after validation: difficulty clamped to the configured
max 1. -/
def decisionClamped : AdaptationDecision :=
  { action := .INCREASE
    magnitude := 0.1
    parameters := Option.some [("difficulty", .num 1)]
    confidence := 0.9
    explanation := "from module" }


/-- A module behavior exercising the engine's success paths: valid states, a
plain in-bounds decision, succeeding checkpoints and resets. -/
def moduleScn : ModuleBehavior :=
  { validate_state := fun _ => .ok true
    compute_adaptation := fun _ => .ok decisionPlain
    save_checkpoint := fun _ => .ok true
    reset := .ok ()
    initModule := fun _ _ => .ok true }

/-- A module behavior whose compute_adaptation raises. -/
def moduleFailScn : ModuleBehavior :=
  { validate_state := fun _ => .ok true
    compute_adaptation := fun _ => .error "RuntimeError: boom"
    save_checkpoint := fun _ => .ok true
    reset := .ok ()
    initModule := fun _ _ => .ok true }

/-- A session record with a nonzero adaptation count. -/
def sessionScn : SessionInfo :=
  { module_type := "rule_based"
    patient_profile := []
    task_config := []
    start_time := 0
    adaptation_count := 7 }

/-- A running engine holding one session s1 and the success-path module. -/
def engScn : EngineState :=
  { is_running := true
    active_module := Option.some moduleScn
    sessions := [("s1", sessionScn)]
    total_adaptations := 3
    safety_interventions := 1
    average_latency_ms := 2
    module_swaps := 0
    registry := [("fuzzy", moduleScn)]
    module_configs := []
    safety := safetyCfgScn
    event_publish := fun _ => .ok () }

/-- engScn with the raising module installed. -/
def engFailScn : EngineState :=
  { engScn with active_module := Option.some moduleFailScn }

/-! ## Theorems -/

unseal Rat.ofScientific Rat.mul Rat.add Rat.sub Rat.inv in
/-- C4 counterexample: with aggregate performance 0.2 (stateC4, single call,
step_size 0.1), the code's LOW trapezoid (0,0,0.3,0.5) puts 0.2 on the plateau
[b,c] = [0,0.3], so its membership is neither 0.667 nor 2/3, and because the
scaled change is exactly −0.01 the strict cutoff test fails and the resulting
action is not MAINTAIN — both against the claim. -/
theorem C4_counterexample :
    trapezoidMembership 0.2 0 0 0.3 0.5 ≠ 667/1000 ∧
    trapezoidMembership 0.2 0 0 0.3 0.5 ≠ 2/3 ∧
    (fuzzyComputeAdaptation 0.1 [] stateC4).toOption.map (fun p => p.2.action) ≠
      Option.some AdaptationAction.MAINTAIN := by
  decide

unseal Rat.ofScientific Rat.mul Rat.add Rat.sub Rat.inv in
/-- C4 amended: for a FuzzyLogicModule with step_size 0.1 and a single call
whose aggregate performance evaluates to 0.2, the LOW trapezoid gives
membership 1, MEDIUM and HIGH give 0, defuzzification gives raw change −0.1,
scaling gives difficulty_change −0.01, and since |−0.01| is not strictly below
the 0.01 cutoff the action is DECREASE with magnitude 0.01 (new difficulty
0.49, confidence 1). -/
theorem C4_amended :
    trapezoidMembership 0.2 0 0 0.3 0.5 = 1 ∧
    trapezoidMembership 0.2 0.3 0.5 0.5 0.7 = 0 ∧
    trapezoidMembership 0.2 0.5 0.7 1.0 1.0 = 0 ∧
    defuzzify 1 0 0 = -0.1 ∧
    (fuzzyComputeAdaptation 0.1 [] stateC4).toOption =
      Option.some ([0.2],
        { action := AdaptationAction.DECREASE
          magnitude := 0.01
          parameters := Option.some [("difficulty", .num 0.49)]
          confidence := 1
          explanation := "Performance is low. Adjusting difficulty" }) := by
  decide

unseal Rat.ofScientific Rat.mul Rat.add Rat.sub Rat.inv in
/-- C5: with the Scenario-1 configuration, after 5 consecutive
compute_adaptation calls each carrying success_rate 0.85 at difficulty 0.5,
the 5th decision is INCREASE with magnitude 0.1 and its parameters report new
difficulty 0.6. -/
theorem C5_fifth_round_increases :
    (ruleBasedIter ruleBasedCfgScn1 stateC5 5).toOption =
      Option.some ([0.85, 0.85, 0.85, 0.85, 0.85],
        Option.some
          { action := AdaptationAction.INCREASE
            magnitude := 0.1
            parameters := Option.some
              [("difficulty", .num 0.6), ("current_performance", .num 0.85)]
            confidence := 0.25
            explanation := "Performance exceeds threshold. Increasing difficulty" }) := by
  decide

unseal Rat.ofScientific Rat.mul Rat.add Rat.sub Rat.inv in
/-- C6: with perf_bins = 10 and diff_bins = 5, discretizing a state with
accuracy 0.25 and difficulty 0.7 under fewer than 2 entries of performance
history yields the discrete state (2, 3, 1): min(int(0.25·10), 9) = 2,
min(int(0.7·5), 4) = 3, and the trend bin defaults to 1 (stable). -/
theorem C6_discretize_state (hist : List ℚ) (h : hist.length < 2) :
    discretizeState 10 5 hist stateC6 = .ok (2, 3, 1) := by
  have ht : calculateTrendBin hist = 1 := by
    unfold calculateTrendBin
    simp [h]
  unfold discretizeState
  simp only [stateC6]
  rw [ht]
  decide

/-- C6 witness: the empty history is shorter than 2 and discretizes stateC6
to (2, 3, 1). -/
theorem C6_discretize_state_witness :
    ([] : List ℚ).length < 2 ∧ discretizeState 10 5 [] stateC6 = .ok (2, 3, 1) :=
  ⟨by decide, C6_discretize_state [] (by decide)⟩

/-- A clamp that reports no modification returns the value unchanged. -/
theorem clampParam_unmodified (bounds : List (String × BoundSpec)) (k : String)
    (v v2 : PyVal) (h : clampParam bounds k v = .ok (v2, false)) : v2 = v := by
  unfold clampParam at h
  repeat' split at h
  all_goals simp_all

/-- clampParam keeps every numeric result inside a configured, consistent
numeric range. -/
theorem clampParam_within (bounds : List (String × BoundSpec)) (k : String)
    (v v2 : PyVal) (m : Bool) (h : clampParam bounds k v = .ok (v2, m))
    (e : PyDict) (lo hi q : ℚ)
    (h1 : alookup bounds k = Option.some (.dict e))
    (h2 : alookup e "min" = Option.some (.num lo))
    (h3 : alookup e "max" = Option.some (.num hi))
    (hle : lo ≤ hi) (h4 : v2 = .num q) : lo ≤ q ∧ q ≤ hi := by
  unfold clampParam at h
  rw [h1] at h
  repeat' split at h
  all_goals simp_all [dget]

/-- An unmodified _apply_parameter_bounds run returns the parameters
unchanged. -/
theorem applyParameterBounds_unmodified (bounds : List (String × BoundSpec)) :
    ∀ ps ps2, applyParameterBounds bounds ps = .ok (ps2, false) → ps2 = ps
  | [], ps2, h => by
    simp only [applyParameterBounds] at h
    simp_all
  | (k0, v0) :: rest, ps2, h => by
    simp only [applyParameterBounds] at h
    cases hc : clampParam bounds k0 v0 with
    | error e0 => simp [hc] at h
    | ok r =>
      obtain ⟨v02, m1⟩ := r
      rw [hc] at h
      cases hr : applyParameterBounds bounds rest with
      | error e0 => simp [hr] at h
      | ok r2 =>
        obtain ⟨rest2, m2⟩ := r2
        rw [hr] at h
        have hp : ((k0, v02) :: rest2, m1 || m2) = (ps2, false) := by
          simpa using h
        have hm : (m1 || m2) = false := congrArg Prod.snd hp
        have hm1 : m1 = false := by cases m1 <;> simp_all
        have hm2 : m2 = false := by cases m2 <;> simp_all
        subst hm1
        subst hm2
        have hv := clampParam_unmodified bounds k0 v0 v02 hc
        have hrest := applyParameterBounds_unmodified bounds rest rest2 hr
        have hfst : ps2 = (k0, v02) :: rest2 := (congrArg Prod.fst hp).symm
        rw [hfst, hv, hrest]

/-- After _apply_parameter_bounds, every entry whose key carries a configured,
consistent numeric range is inside it whenever the entry value is numeric. -/
theorem applyParameterBounds_within (bounds : List (String × BoundSpec)) :
    ∀ ps ps2 m, applyParameterBounds bounds ps = .ok (ps2, m) →
      ∀ k v, (k, v) ∈ ps2 → ∀ e lo hi q,
        alookup bounds k = Option.some (.dict e) →
        alookup e "min" = Option.some (.num lo) →
        alookup e "max" = Option.some (.num hi) →
        lo ≤ hi → v = .num q → lo ≤ q ∧ q ≤ hi
  | [], ps2, m, h => by
    simp only [applyParameterBounds] at h
    have hps : ps2 = [] := by
      have hp : (([] : PyDict), false) = (ps2, m) := by simpa using h
      exact (congrArg Prod.fst hp).symm
    subst hps
    intro k v hv
    exact absurd hv (by simp)
  | (k0, v0) :: rest, ps2, m, h => by
    simp only [applyParameterBounds] at h
    cases hc : clampParam bounds k0 v0 with
    | error e0 => simp [hc] at h
    | ok r =>
      obtain ⟨v02, m1⟩ := r
      rw [hc] at h
      cases hr : applyParameterBounds bounds rest with
      | error e0 => simp [hr] at h
      | ok r2 =>
        obtain ⟨rest2, m2⟩ := r2
        rw [hr] at h
        have hp : ((k0, v02) :: rest2, m1 || m2) = (ps2, m) := by simpa using h
        have hfst : ps2 = (k0, v02) :: rest2 := (congrArg Prod.fst hp).symm
        subst hfst
        intro k v hv e lo hi q h1 h2 h3 hle h4
        rcases List.mem_cons.mp hv with hhead | htail
        · have hk : k = k0 := congrArg Prod.fst hhead
          have hv0 : v = v02 := congrArg Prod.snd hhead
          subst hk
          subst hv0
          exact clampParam_within bounds k v0 v m1 hc e lo hi q h1 h2 h3 hle h4
        · exact applyParameterBounds_within bounds rest rest2 m2 hr k v htail e lo hi q
            h1 h2 h3 hle h4

theorem rateLimit_le (cfg : SafetyConfig) (d d3 : AdaptationDecision) (rm : Bool)
    (h : rateLimit cfg d = (d3, rm)) :
    d3.magnitude ≤ cfg.max_change_rate ∧ d3.parameters = d.parameters := by
  unfold rateLimit at h
  split at h
  · have h1 : _ = d3 := congrArg Prod.fst h
    subst h1
    exact ⟨le_refl _, rfl⟩
  · have h1 : _ = d3 := congrArg Prod.fst h
    subst h1
    exact ⟨le_of_not_lt (by assumption), rfl⟩

theorem validateFrom_bounds (cfg : SafetyConfig) (st : StateVector)
    (d1 : AdaptationDecision) (m1 : Bool) (v1 : List Violation)
    (out : AdaptationDecision) (modified : Bool) (viols : List Violation)
    (hrate : 0 ≤ cfg.max_change_rate)
    (h : validateFrom cfg st d1 m1 v1 = .ok (out, modified, viols)) :
    out.magnitude ≤ cfg.max_change_rate ∧
    ∀ ps k v, out.parameters = Option.some ps → (k, v) ∈ ps →
      ∀ e lo hi q, alookup cfg.bounds k = Option.some (.dict e) →
        alookup e "min" = Option.some (.num lo) →
        alookup e "max" = Option.some (.num hi) →
        lo ≤ hi → v = .num q → lo ≤ q ∧ q ≤ hi := by
  unfold validateFrom at h
  cases hps : d1.parameters with
  | none =>
    simp only [hps] at h
    exact absurd h (by simp)
  | some ps0 =>
    simp only [hps] at h
    cases hb : applyParameterBounds cfg.bounds ps0 with
    | error e =>
      simp only [hb] at h
      exact absurd h (by simp)
    | ok r =>
      obtain ⟨ps2, pm⟩ := r
      have hd2 :
          (if pm then { d1 with parameters := Option.some ps2 } else d1).parameters =
            Option.some (if pm then ps2 else ps0) := by
        cases pm <;> simp [hps]
      simp only [hb] at h
      rcases hrl : rateLimit cfg (if pm then { d1 with parameters := Option.some ps2 } else d1)
        with ⟨d3, rm⟩
      rw [hrl] at h
      have hd3 := rateLimit_le cfg _ d3 rm hrl
      cases hf : isActionFeasible cfg st d3 with
      | error e => rw [hf] at h; simp at h
      | ok b =>
        rw [hf] at h
        cases b with
        | true =>
          simp only at h
          have h5 : (d3, m1 || (pm || rm), _) = (out, modified, viols) := Except.ok.inj h
          have hout : d3 = out := congrArg Prod.fst h5
          subst hout
          refine ⟨hd3.1, ?_⟩
          intro ps k v hps2 hv e lo hi q h1 h2 h3 hle h4
          rw [hd3.2, hd2] at hps2
          have hpseq : ps = if pm then ps2 else ps0 := (Option.some.inj hps2).symm
          subst hpseq
          cases pm with
          | true =>
            exact applyParameterBounds_within cfg.bounds ps0 ps2 true hb k v
              (by simpa using hv) e lo hi q h1 h2 h3 hle h4
          | false =>
            have hun := applyParameterBounds_unmodified cfg.bounds ps0 ps2 hb
            exact applyParameterBounds_within cfg.bounds ps0 ps2 false hb k v
              (by rw [hun]; simpa using hv) e lo hi q h1 h2 h3 hle h4
        | false =>
          simp only at h
          have h5 := Except.ok.inj h
          have hout : _ = out := congrArg Prod.fst h5
          subst hout
          refine ⟨hrate, ?_⟩
          intro ps k v hps2 hv e lo hi q h1 h2 h3 hle h4
          have hps3 : ps = [] := by
            simpa [safeDefault] using hps2.symm
          subst hps3
          exact absurd hv (by simp)

theorem numIfPresent_lookup (e : PyDict) (key : String) (v : PyVal)
    (hwf : numIfPresent e key = true) (hl : alookup e key = Option.some v) :
    ∃ q, v = PyVal.num q := by
  unfold numIfPresent at hwf
  rw [hl] at hwf
  cases v with
  | num q => exact ⟨q, rfl⟩
  | str s => simp at hwf
  | none => simp at hwf

theorem boundsWF_lookup (bounds : List (String × BoundSpec)) (k : String)
    (bv : BoundSpec) (hwf : boundsWF bounds = true)
    (hl : alookup bounds k = Option.some bv) : boundSpecWF bv = true := by
  unfold alookup at hl
  cases hf : List.find? (fun p => p.1 == k) bounds with
  | none => rw [hf] at hl; simp at hl
  | some p =>
    rw [hf] at hl
    simp at hl
    have hmem := List.mem_of_find?_eq_some hf
    unfold boundsWF at hwf
    rw [List.all_eq_true] at hwf
    have hp := hwf p hmem
    rw [hl] at hp
    exact hp

theorem clampParam_ok (bounds : List (String × BoundSpec)) (k : String) (v : PyVal)
    (hwf : boundsWF bounds = true) : ∃ r, clampParam bounds k v = .ok r := by
  unfold clampParam
  cases hl : alookup bounds k with
  | none => simp only [hl]; exact ⟨_, rfl⟩
  | some bv =>
    cases bv with
    | scalar v0 => simp only [hl]; exact ⟨_, rfl⟩
    | dict e =>
      have hbs := boundsWF_lookup bounds k _ hwf hl
      simp only [boundSpecWF, Bool.and_eq_true] at hbs
      simp only [hl]
      split
      case isTrue hsome =>
        rw [Bool.and_eq_true] at hsome
        obtain ⟨h1s, h2s⟩ := hsome
        cases v with
        | num q =>
          rcases Option.isSome_iff_exists.mp h1s with ⟨vmin, hvmin⟩
          obtain ⟨lo, hlo⟩ := numIfPresent_lookup e "min" vmin hbs.1 hvmin
          subst hlo
          have hd1 : dget e "min" PyVal.none = PyVal.num lo := by simp [dget, hvmin]
          simp only [hd1]
          split
          · exact ⟨_, rfl⟩
          · rcases Option.isSome_iff_exists.mp h2s with ⟨vmax, hvmax⟩
            obtain ⟨hi, hhi⟩ := numIfPresent_lookup e "max" vmax hbs.2 hvmax
            subst hhi
            have hd2 : dget e "max" PyVal.none = PyVal.num hi := by simp [dget, hvmax]
            simp only [hd2]
            split
            · exact ⟨_, rfl⟩
            · exact ⟨_, rfl⟩
        | str s => exact ⟨_, rfl⟩
        | none => exact ⟨_, rfl⟩
      case isFalse => exact ⟨_, rfl⟩

theorem applyParameterBounds_ok (bounds : List (String × BoundSpec))
    (hwf : boundsWF bounds = true) :
    ∀ ps, ∃ r, applyParameterBounds bounds ps = .ok r
  | [] => ⟨([], false), rfl⟩
  | (k, v) :: rest => by
    obtain ⟨⟨v2, m1⟩, hc⟩ := clampParam_ok bounds k v hwf
    obtain ⟨⟨rest2, m2⟩, hr⟩ := applyParameterBounds_ok bounds hwf rest
    refine ⟨((k, v2) :: rest2, m1 || m2), ?_⟩
    simp only [applyParameterBounds]
    rw [hc, hr]

theorem isActionFeasible_readable (cfg : SafetyConfig) (st : StateVector)
    (d : AdaptationDecision) (hwf : boundsWF cfg.bounds = true)
    (hdr : difficultyReadable st = true) : ∃ b, isActionFeasible cfg st d = .ok b := by
  unfold difficultyReadable at hdr
  unfold isActionFeasible
  cases hts : st.task_state with
  | none =>
    simp only [hts] at hdr
    exact absurd hdr (by simp)
  | some ts =>
    simp only [hts] at hdr
    simp only [hts]
    have hcur : ∃ q, toFloatIfStr (dget ts "difficulty" (.num 0.5)) = .ok (.num q) := by
      cases hv : dget ts "difficulty" (.num 0.5) with
      | num q => exact ⟨q, rfl⟩
      | str s =>
        simp only [hv] at hdr
        rcases Option.isSome_iff_exists.mp hdr with ⟨q, hq⟩
        exact ⟨q, by simp [toFloatIfStr, hq]⟩
      | none =>
        simp only [hv] at hdr
        exact absurd hdr (by simp)
    obtain ⟨q, hq⟩ := hcur
    rw [hq]
    have hmax : ∀ e, alookup cfg.bounds "difficulty" = Option.some (.dict e) →
        ∃ hi, dget e "max" (.num 1.0) = PyVal.num hi := by
      intro e hl
      have hbs := boundsWF_lookup cfg.bounds "difficulty" _ hwf hl
      simp only [boundSpecWF, Bool.and_eq_true] at hbs
      cases hm : alookup e "max" with
      | none => exact ⟨1.0, by simp [dget, hm]⟩
      | some v0 =>
        obtain ⟨hi, hhi⟩ := numIfPresent_lookup e "max" v0 hbs.2 hm
        subst hhi
        exact ⟨hi, by simp [dget, hm]⟩
    have hmin : ∀ e, alookup cfg.bounds "difficulty" = Option.some (.dict e) →
        ∃ lo, dget e "min" (.num 0.0) = PyVal.num lo := by
      intro e hl
      have hbs := boundsWF_lookup cfg.bounds "difficulty" _ hwf hl
      simp only [boundSpecWF, Bool.and_eq_true] at hbs
      cases hm : alookup e "min" with
      | none => exact ⟨0.0, by simp [dget, hm]⟩
      | some v0 =>
        obtain ⟨lo, hlo⟩ := numIfPresent_lookup e "min" v0 hbs.1 hm
        subst hlo
        exact ⟨lo, by simp [dget, hm]⟩
    rcases hact : d.action with _ | _ | _
    · cases hl : alookup cfg.bounds "difficulty" with
      | none => simp only [hl]; exact ⟨_, rfl⟩
      | some bv =>
        cases bv with
        | scalar v0 =>
          have hcontra := boundsWF_lookup cfg.bounds "difficulty" _ hwf hl
          simp [boundSpecWF] at hcontra
        | dict e =>
          obtain ⟨hi, hhi⟩ := hmax e hl
          simp only [hl, hhi]
          exact ⟨_, rfl⟩
    · cases hl : alookup cfg.bounds "difficulty" with
      | none => simp only [hl]; exact ⟨_, rfl⟩
      | some bv =>
        cases bv with
        | scalar v0 =>
          have hcontra := boundsWF_lookup cfg.bounds "difficulty" _ hwf hl
          simp [boundSpecWF] at hcontra
        | dict e =>
          obtain ⟨lo, hlo⟩ := hmin e hl
          simp only [hl, hlo]
          exact ⟨_, rfl⟩
    · exact ⟨_, rfl⟩

theorem validateFrom_ok (cfg : SafetyConfig) (st : StateVector)
    (d1 : AdaptationDecision) (m1 : Bool) (v1 : List Violation)
    (hwf : boundsWF cfg.bounds = true) (hdr : difficultyReadable st = true)
    (hps : d1.parameters ≠ Option.none) :
    ∃ r, validateFrom cfg st d1 m1 v1 = .ok r := by
  unfold validateFrom
  cases hp : d1.parameters with
  | none => exact absurd hp hps
  | some ps0 =>
    obtain ⟨⟨ps2, pm⟩, hb⟩ := applyParameterBounds_ok cfg.bounds hwf ps0
    rcases hrl : rateLimit cfg (if pm then { d1 with parameters := Option.some ps2 } else d1)
      with ⟨d3, rm⟩
    obtain ⟨b, hf⟩ := isActionFeasible_readable cfg st d3 hwf hdr
    cases b with
    | true =>
      exact ⟨(d3, m1 || (pm || rm),
        (if rm then (if pm then v1 ++ [Violation.parameter_bounds] else v1) ++ [Violation.rate_limit]
         else (if pm then v1 ++ [Violation.parameter_bounds] else v1))),
        by simp only [hp, hb, hrl, hf]⟩
    | false =>
      exact ⟨({ safeDefault with
          explanation := "Action not feasible. Maintaining current difficulty." }, true,
        (if rm then (if pm then v1 ++ [Violation.parameter_bounds] else v1) ++ [Violation.rate_limit]
         else (if pm then v1 ++ [Violation.parameter_bounds] else v1)) ++ [Violation.infeasible_action]),
        by simp only [hp, hb, hrl, hf]⟩

theorem isActionFeasible_maintain (cfg : SafetyConfig) (st : StateVector)
    (d : AdaptationDecision) (hact : d.action = AdaptationAction.MAINTAIN)
    (hdr : difficultyReadable st = true) : isActionFeasible cfg st d = .ok true := by
  unfold difficultyReadable at hdr
  unfold isActionFeasible
  cases hts : st.task_state with
  | none =>
    simp only [hts] at hdr
    exact absurd hdr (by simp)
  | some ts =>
    simp only [hts] at hdr
    simp only [hts]
    cases hv : dget ts "difficulty" (.num 0.5) with
    | num q => simp only [hv, toFloatIfStr, hact]
    | str s =>
      simp only [hv] at hdr
      rcases Option.isSome_iff_exists.mp hdr with ⟨q, hq⟩
      simp only [hv, toFloatIfStr, hq, hact]
    | none =>
      simp only [hv] at hdr
      exact absurd hdr (by simp)

/-- C1: with the safety wrapper enabled and a non-negative max_change_rate,
every decision validate_decision returns satisfies magnitude ≤
max_change_rate, and every numeric parameter of the returned decision whose
key carries a configured consistent numeric {min,max} bound lies within
[min, max]. -/
theorem C1_validated_decision_respects_bounds
    (cfg : SafetyConfig) (d : AdaptationDecision) (st : StateVector)
    (out : AdaptationDecision) (modified : Bool) (viols : List Violation)
    (hen : cfg.enabled = true) (hrate : 0 ≤ cfg.max_change_rate)
    (h : validate_decision cfg d st = .ok (out, modified, viols)) :
    out.magnitude ≤ cfg.max_change_rate ∧
    ∀ ps k v, out.parameters = Option.some ps → (k, v) ∈ ps →
      ∀ e lo hi q, alookup cfg.bounds k = Option.some (.dict e) →
        alookup e "min" = Option.some (.num lo) →
        alookup e "max" = Option.some (.num hi) →
        lo ≤ hi → v = .num q → lo ≤ q ∧ q ≤ hi := by
  unfold validate_decision at h
  rw [hen] at h
  rw [if_neg (by simp)] at h
  split at h
  · exact validateFrom_bounds cfg st confidenceDefault true [Violation.low_confidence]
      out modified viols hrate h
  · exact validateFrom_bounds cfg st d false [] out modified viols hrate h

unseal Rat.ofScientific Rat.mul Rat.add Rat.sub Rat.inv in
/-- C1 witness: validating a decision whose difficulty parameter 1.5 exceeds
the configured max clamps it to 1 and the theorem applies. -/
theorem C1_validated_decision_respects_bounds_witness :
    safetyCfgScn.enabled = true ∧
    (0 : ℚ) ≤ safetyCfgScn.max_change_rate ∧
    validate_decision safetyCfgScn decisionOverMax stateDiffHalf =
      .ok (decisionClamped, true, [Violation.parameter_bounds]) ∧
    (decisionClamped.magnitude ≤ safetyCfgScn.max_change_rate ∧
     ∀ ps k v, decisionClamped.parameters = Option.some ps → (k, v) ∈ ps →
       ∀ e lo hi q, alookup safetyCfgScn.bounds k = Option.some (.dict e) →
         alookup e "min" = Option.some (.num lo) →
         alookup e "max" = Option.some (.num hi) →
         lo ≤ hi → v = .num q → lo ≤ q ∧ q ≤ hi) :=
  ⟨by decide, by decide, by decide,
   C1_validated_decision_respects_bounds safetyCfgScn decisionOverMax stateDiffHalf
     decisionClamped true [Violation.parameter_bounds] (by decide) (by decide) (by decide)⟩

/-- C2 amended: for well-formed inputs — a present parameters dict, bound
entries that are dicts with numeric min/max when present, and a readable
difficulty (numeric, or a float-parseable string, in a present task_state) —
validate_decision returns an ok pair and never raises. -/
theorem C2_wellformed_validation_never_raises (cfg : SafetyConfig) (d : AdaptationDecision) (st : StateVector)
    (hps : d.parameters ≠ Option.none)
    (hwf : boundsWF cfg.bounds = true)
    (hdr : difficultyReadable st = true) :
    ∃ r, validate_decision cfg d st = .ok r := by
  cases hen : cfg.enabled with
  | false => exact ⟨(d, false, []), by simp [validate_decision, hen]⟩
  | true =>
    by_cases hc : d.confidence < cfg.min_confidence
    · obtain ⟨r, hr⟩ := validateFrom_ok cfg st confidenceDefault true
        [Violation.low_confidence] hwf hdr (by simp [confidenceDefault, safeDefault])
      exact ⟨r, by unfold validate_decision; rw [hen, if_neg (by simp), if_pos hc]; exact hr⟩
    · obtain ⟨r, hr⟩ := validateFrom_ok cfg st d false [] hwf hdr hps
      exact ⟨r, by unfold validate_decision; rw [hen, if_neg (by simp), if_neg hc]; exact hr⟩

unseal Rat.ofScientific Rat.mul Rat.add Rat.sub Rat.inv in
/-- C2 counterexample: a state whose task_state carries the non-numeric
string difficulty "hard" makes validate_decision raise ValueError (from
float() inside _is_action_feasible) rather than return a pair, against the
claim that it never raises on malformed inputs. -/
theorem C2_counterexample_string_difficulty_raises :
    validate_decision safetyCfgScn decisionPlain stateStrDiff =
      .error "ValueError: could not convert string to float" := by
  decide

unseal Rat.ofScientific Rat.mul Rat.add Rat.sub Rat.inv in
/-- C2 witness: a plain decision and a numeric-difficulty state satisfy the
well-formedness hypotheses and validate to an ok pair. -/
theorem C2_wellformed_validation_never_raises_witness :
    decisionPlain.parameters ≠ Option.none ∧
    boundsWF safetyCfgScn.bounds = true ∧
    difficultyReadable stateDiffHalf = true ∧
    ∃ r, validate_decision safetyCfgScn decisionPlain stateDiffHalf = .ok r :=
  ⟨by decide, by decide, by decide,
   C2_wellformed_validation_never_raises safetyCfgScn decisionPlain stateDiffHalf
     (by decide) (by decide) (by decide)⟩

/-- C7: with the wrapper enabled, a non-negative max_change_rate and a
readable difficulty, every decision whose confidence is below min_confidence
is replaced by the safe default (MAINTAIN, magnitude 0, confidence 1,
explanation noting the override), with was_modified = true and exactly a
low_confidence violation recorded. -/
theorem C7_low_confidence_replaced_by_safe_default (cfg : SafetyConfig) (d : AdaptationDecision)
    (st : StateVector) (hen : cfg.enabled = true)
    (hconf : d.confidence < cfg.min_confidence) (hrate : 0 ≤ cfg.max_change_rate)
    (hdr : difficultyReadable st = true) :
    validate_decision cfg d st =
      .ok (confidenceDefault, true, [Violation.low_confidence]) := by
  have hnot : ¬ (confidenceDefault.magnitude > cfg.max_change_rate) := by
    simp only [confidenceDefault, safeDefault]
    exact not_lt.mpr hrate
  have hrl : rateLimit cfg confidenceDefault = (confidenceDefault, false) := by
    unfold rateLimit
    exact if_neg hnot
  have hfe : isActionFeasible cfg st confidenceDefault = .ok true :=
    isActionFeasible_maintain cfg st confidenceDefault rfl hdr
  unfold validate_decision
  rw [hen, if_neg (by simp), if_pos hconf]
  unfold validateFrom
  have hpar : confidenceDefault.parameters = Option.some [] := rfl
  simp only [hpar, applyParameterBounds]
  simp [hrl, hfe]


unseal Rat.ofScientific Rat.mul Rat.add Rat.sub Rat.inv in
/-- C7 witness: confidence 0.1 against the floor 0.3 triggers the safe
default. -/
theorem C7_low_confidence_replaced_by_safe_default_witness :
    safetyCfgScn.enabled = true ∧
    decisionLowConf.confidence < safetyCfgScn.min_confidence ∧
    (0 : ℚ) ≤ safetyCfgScn.max_change_rate ∧
    difficultyReadable stateDiffHalf = true ∧
    validate_decision safetyCfgScn decisionLowConf stateDiffHalf =
      .ok (confidenceDefault, true, [Violation.low_confidence]) :=
  ⟨by decide, by decide, by decide, by decide,
   C7_low_confidence_replaced_by_safe_default safetyCfgScn decisionLowConf stateDiffHalf
     (by decide) (by decide) (by decide) (by decide)⟩


theorem afterStats_event_publish (eng : EngineState) (w : Bool) (lat : ℚ) (sid : String) :
    (afterStats eng w lat sid).event_publish = eng.event_publish := by
  unfold afterStats updateStats
  cases w <;> cases hl : alookup eng.sessions sid <;> simp [hl]

theorem afterStats_total (eng : EngineState) (w : Bool) (lat : ℚ) (sid : String) :
    (afterStats eng w lat sid).total_adaptations = eng.total_adaptations + 1 := by
  unfold afterStats updateStats
  cases w <;> cases hl : alookup eng.sessions sid <;> simp [hl]

theorem afterStats_sessions_unknown (eng : EngineState) (w : Bool) (lat : ℚ) (sid : String)
    (h : alookup eng.sessions sid = Option.none) :
    (afterStats eng w lat sid).sessions = eng.sessions := by
  unfold afterStats updateStats
  cases w <;> simp [h]

theorem alookup_setSession_self (l : List (String × SessionInfo)) (k : String)
    (info : SessionInfo) :
    alookup (setSession l k info) k = (alookup l k).map (fun _ => info) := by
  induction l with
  | nil => simp [setSession, alookup]
  | cons p rest ih =>
    by_cases hk : p.1 == k
    · simp [setSession, alookup, List.find?, hk]
    · simp only [setSession, List.map] at ih ⊢
      simp [alookup, List.find?, hk] at ih ⊢
      exact ih

theorem alookup_setSession_other (l : List (String × SessionInfo)) (k k2 : String)
    (info : SessionInfo) (h : k2 ≠ k) :
    alookup (setSession l k info) k2 = alookup l k2 := by
  induction l with
  | nil => simp [setSession, alookup]
  | cons p rest ih =>
    by_cases hk : p.1 == k
    · have hp2 : (p.1 == k2) = false := by
        have : p.1 = k := by simpa using hk
        subst this
        simpa using fun hcontra => h (by simpa using hcontra.symm)
      simp only [setSession, List.map] at ih ⊢
      simp [alookup, List.find?, hk, hp2] at ih ⊢
      · exact ih
    · simp only [setSession, List.map] at ih ⊢
      by_cases hp2 : p.1 == k2
      · simp [alookup, List.find?, hk, hp2]
      · simp [alookup, List.find?, hk, hp2] at ih ⊢
        exact ih

/-- C3: compute_adaptation returns the no-decision sentinel (and never
propagates a fault — the embedding is total) whenever the engine is not
running, has no active module, the module rejects the state, or any pipeline
stage (state validation, module computation, safety validation, event
publication) raises. -/
theorem C3_compute_adaptation_catches_all_faults (eng : EngineState) (sid : String) (st : StateVector) (lat : ℚ)
    (h : eng.is_running = false ∨ eng.active_module = Option.none ∨
      ∃ m, eng.active_module = Option.some m ∧
        ((∃ e, m.validate_state st = .error e) ∨
         m.validate_state st = .ok false ∨
         (m.validate_state st = .ok true ∧
           ((∃ e, m.compute_adaptation st = .error e) ∨
            ∃ d, m.compute_adaptation st = .ok d ∧
              ((∃ e, validate_decision eng.safety d st = .error e) ∨
               ∃ r, validate_decision eng.safety d st = .ok r ∧
                 ∃ e, eng.event_publish "adaptation.computed" = .error e))))) :
    (computeAdaptation eng sid st lat).2 = Option.none := by
  unfold computeAdaptation
  rcases h with hrun | hmod | ⟨m, hm, hrest⟩
  · simp [hrun]
  · cases hrun : eng.is_running with
    | false => simp [hrun]
    | true => simp [hrun, hmod]
  · cases hrun : eng.is_running with
    | false => simp [hrun]
    | true =>
      simp only [hrun, Bool.not_true, Bool.false_eq_true, if_false, hm]
      rcases hrest with ⟨e, hv⟩ | hv | ⟨hv, hrest2⟩
      · simp [hv]
      · simp [hv]
      · simp only [hv]
        rcases hrest2 with ⟨e, hc⟩ | ⟨d, hc, hrest3⟩
        · simp [hc]
        · simp only [hc]
          rcases hrest3 with ⟨e, hsafe⟩ | ⟨r, hsafe, e, hpub⟩
          · simp [hsafe]
          · obtain ⟨sd, wm, vs⟩ := r
            simp only [hsafe]
            rw [afterStats_event_publish]
            simp [hpub]

/-- C8: ending the only remaining session (with succeeding checkpoint, reset
and publish) returns true, transitions the engine to NOT_RUNNING, clears the
active module, and makes every subsequent compute_adaptation call return the
no-decision sentinel without touching the engine state. -/
theorem C8_end_last_session_stops_engine (eng : EngineState) (sid : String) (info : SessionInfo)
    (honly : eng.sessions = [(sid, info)])
    (hcleanup : checkpointAndReset eng.active_module
      ("checkpoints/" ++ sid ++ "_" ++ info.module_type ++ "_final.ckpt") = .ok ())
    (hpub : eng.event_publish "session.ended" = .ok ()) :
    (endSession eng sid).2 = true ∧
    (endSession eng sid).1.is_running = false ∧
    (endSession eng sid).1.active_module = Option.none ∧
    ∀ sid2 st lat, computeAdaptation (endSession eng sid).1 sid2 st lat =
      ((endSession eng sid).1, Option.none) := by
  have hlook : alookup eng.sessions sid = Option.some info := by
    simp [honly, alookup, List.find?]
  have hfilter : eng.sessions.filter (fun p => !(p.1 == sid)) = [] := by
    simp [honly]
  have hend : endSession eng sid =
      ({ eng with
          sessions := []
          is_running := false
          active_module := Option.none }, true) := by
    unfold endSession
    simp only [hlook, hcleanup, hfilter, hpub]
    simp
  rw [hend]
  refine ⟨rfl, rfl, rfl, ?_⟩
  intro sid2 st lat
  unfold computeAdaptation
  simp

/-- C9: a successful swap_module leaves the session's adaptation_count,
patient_profile, task_config and start_time unchanged (only module_type
changes in the record), increments module_swaps, leaves the other counters,
the running flag, the safety configuration and every other session untouched. -/
theorem C9_swap_preserves_session_counters (eng : EngineState) (sid newType : String) (ncfg : Option PyDict)
    (info : SessionInfo)
    (hs : alookup eng.sessions sid = Option.some info)
    (hok : (swapModule eng sid newType ncfg).2 = true) :
    alookup (swapModule eng sid newType ncfg).1.sessions sid =
      Option.some { info with module_type := newType } ∧
    (swapModule eng sid newType ncfg).1.module_swaps = eng.module_swaps + 1 ∧
    (swapModule eng sid newType ncfg).1.is_running = eng.is_running ∧
    (swapModule eng sid newType ncfg).1.total_adaptations = eng.total_adaptations ∧
    (swapModule eng sid newType ncfg).1.safety_interventions = eng.safety_interventions ∧
    (swapModule eng sid newType ncfg).1.average_latency_ms = eng.average_latency_ms ∧
    (swapModule eng sid newType ncfg).1.safety = eng.safety ∧
    ∀ sid2, sid2 ≠ sid →
      alookup (swapModule eng sid newType ncfg).1.sessions sid2 =
        alookup eng.sessions sid2 := by
  unfold swapModule at hok ⊢
  simp only [hs] at hok ⊢
  cases hck : checkpointModule eng.active_module
      ("checkpoints/" ++ sid ++ "_" ++ info.module_type ++ ".ckpt") with
  | error e => simp [hck] at hok
  | ok u =>
    simp only [hck] at hok ⊢
    cases hreg : alookup eng.registry newType with
    | none => simp [hreg] at hok
    | some newMod =>
      simp only [hreg] at hok ⊢
      cases hinit : newMod.initModule (swapConfig eng newType ncfg)
          info.patient_profile with
      | error e => simp [hinit] at hok
      | ok b =>
        cases b with
        | false => simp [hinit] at hok
        | true =>
          simp only [hinit] at hok ⊢
          cases hreset : resetModule eng.active_module with
          | error e => simp [hreset] at hok
          | ok u2 =>
            simp only [hreset] at hok ⊢
            cases hpub : eng.event_publish "module.swapped" with
            | error e => simp [hpub] at hok
            | ok u3 =>
              simp only [hpub] at hok ⊢
              refine ⟨?_, by simp, by simp, by simp, by simp, by simp, by simp, ?_⟩
              · simp [alookup_setSession_self, hs]
              · intro sid2 hne
                have h2 := alookup_setSession_other eng.sessions sid sid2
                  ({ info with module_type := newType }) hne
                simpa using h2

/-- C10: compute_adaptation with an unregistered session_id still computes,
safety-validates and returns the decision, and still increments
total_adaptations; only the per-session counter update is skipped (the
session table is unchanged). -/
theorem C10_unknown_session_still_computes (eng : EngineState) (sid : String) (st : StateVector) (lat : ℚ)
    (m : ModuleBehavior) (d sd : AdaptationDecision) (wasMod : Bool)
    (viols : List Violation)
    (hrun : eng.is_running = true)
    (hm : eng.active_module = Option.some m)
    (hunknown : alookup eng.sessions sid = Option.none)
    (hv : m.validate_state st = .ok true)
    (hc : m.compute_adaptation st = .ok d)
    (hsafe : validate_decision eng.safety d st = .ok (sd, wasMod, viols))
    (hpub : eng.event_publish "adaptation.computed" = .ok ()) :
    (computeAdaptation eng sid st lat).2 = Option.some sd ∧
    (computeAdaptation eng sid st lat).1.total_adaptations = eng.total_adaptations + 1 ∧
    (computeAdaptation eng sid st lat).1.sessions = eng.sessions := by
  unfold computeAdaptation
  simp only [hrun, Bool.not_true, Bool.false_eq_true, if_false, hm, hv, hc, hsafe]
  rw [afterStats_event_publish]
  simp only [hpub]
  exact ⟨by trivial, afterStats_total eng wasMod lat sid,
    afterStats_sessions_unknown eng wasMod lat sid hunknown⟩

/-- C3 witness: a module whose compute_adaptation raises makes the engine
return the no-decision sentinel. -/
theorem C3_compute_adaptation_catches_all_faults_witness :
    (∃ e, moduleFailScn.compute_adaptation stateDiffHalf = .error e) ∧
    (computeAdaptation engFailScn "s1" stateDiffHalf 0).2 = Option.none :=
  ⟨⟨"RuntimeError: boom", rfl⟩,
   C3_compute_adaptation_catches_all_faults engFailScn "s1" stateDiffHalf 0
     (Or.inr (Or.inr ⟨moduleFailScn, rfl,
       Or.inr (Or.inr ⟨rfl, Or.inl ⟨"RuntimeError: boom", rfl⟩⟩)⟩))⟩

/-- C8 witness: ending s1, the only session of engScn. -/
theorem C8_end_last_session_stops_engine_witness :
    engScn.sessions = [("s1", sessionScn)] ∧
    checkpointAndReset engScn.active_module
      ("checkpoints/" ++ "s1" ++ "_" ++ sessionScn.module_type ++ "_final.ckpt") = .ok () ∧
    engScn.event_publish "session.ended" = .ok () ∧
    (endSession engScn "s1").2 = true ∧
    (endSession engScn "s1").1.is_running = false ∧
    (endSession engScn "s1").1.active_module = Option.none ∧
    computeAdaptation (endSession engScn "s1").1 "s2" stateDiffHalf 0 =
      ((endSession engScn "s1").1, Option.none) :=
  ⟨rfl, rfl, rfl,
   (C8_end_last_session_stops_engine engScn "s1" sessionScn rfl rfl rfl).1,
   (C8_end_last_session_stops_engine engScn "s1" sessionScn rfl rfl rfl).2.1,
   (C8_end_last_session_stops_engine engScn "s1" sessionScn rfl rfl rfl).2.2.1,
   (C8_end_last_session_stops_engine engScn "s1" sessionScn rfl rfl rfl).2.2.2 "s2" stateDiffHalf 0⟩

/-- C9 witness: swapping s1 to the registered fuzzy module. -/
theorem C9_swap_preserves_session_counters_witness :
    alookup engScn.sessions "s1" = Option.some sessionScn ∧
    (swapModule engScn "s1" "fuzzy" Option.none).2 = true ∧
    alookup (swapModule engScn "s1" "fuzzy" Option.none).1.sessions "s1" =
      Option.some { sessionScn with module_type := "fuzzy" } ∧
    (swapModule engScn "s1" "fuzzy" Option.none).1.module_swaps = engScn.module_swaps + 1 :=
  ⟨rfl, rfl,
   (C9_swap_preserves_session_counters engScn "s1" "fuzzy" Option.none sessionScn rfl rfl).1,
   (C9_swap_preserves_session_counters engScn "s1" "fuzzy" Option.none sessionScn rfl rfl).2.1⟩

unseal Rat.ofScientific Rat.mul Rat.add Rat.sub Rat.inv in
/-- C10 witness: computing for the unregistered session ghost. -/
theorem C10_unknown_session_still_computes_witness :
    engScn.is_running = true ∧
    alookup engScn.sessions "ghost" = Option.none ∧
    validate_decision engScn.safety decisionPlain stateDiffHalf =
      .ok (decisionPlain, false, []) ∧
    (computeAdaptation engScn "ghost" stateDiffHalf 0).2 = Option.some decisionPlain ∧
    (computeAdaptation engScn "ghost" stateDiffHalf 0).1.total_adaptations =
      engScn.total_adaptations + 1 ∧
    (computeAdaptation engScn "ghost" stateDiffHalf 0).1.sessions = engScn.sessions :=
  ⟨rfl, rfl, by decide,
   (C10_unknown_session_still_computes engScn "ghost" stateDiffHalf 0 moduleScn decisionPlain decisionPlain
     false [] rfl rfl rfl rfl rfl (by decide) rfl).1,
   (C10_unknown_session_still_computes engScn "ghost" stateDiffHalf 0 moduleScn decisionPlain decisionPlain
     false [] rfl rfl rfl rfl rfl (by decide) rfl).2.1,
   (C10_unknown_session_still_computes engScn "ghost" stateDiffHalf 0 moduleScn decisionPlain decisionPlain
     false [] rfl rfl rfl rfl rfl (by decide) rfl).2.2⟩


end AdaptRehab
